import Mathlib

/-
  Verification of the helmet-IoT crash-alert pipeline.

  The embedding models `src/App.tsx` (signal conditioning, rollover check,
  alert lifecycle controller, connectivity check) as a deterministic step
  function over an explicit application state, and
  `supabase/functions/send-accident-alert/index.ts` as a pure
  request-to-response function.  Sensor values are rationals; the crash
  classifier (`AccidentDetectionService`, whose implementation lives outside
  the modelled sources) is a parameter `detect : List Reading → Verdict`,
  so every theorem quantifying over `detect` holds regardless of the
  classifier's behaviour.  Persistence outcomes (`createAlert` success or
  failure) are an oracle carried by the sample event.
-/

namespace IoT

/-- A 3-component vector of rationals (accelerometer / gyroscope axes). -/
structure Vec3 where
  x : ℚ
  y : ℚ
  z : ℚ
deriving DecidableEq

/-- A raw database row as delivered to `handleNewData` (App.tsx).
`created_at` is the sample timestamp in milliseconds. -/
structure SensorDataRow where
  latitude : ℚ
  longitude : ℚ
  acc_x : ℚ
  acc_y : ℚ
  acc_z : ℚ
  gyro_x : ℚ
  gyro_y : ℚ
  gyro_z : ℚ
  created_at : ℤ
deriving DecidableEq

/-- Converted sensor data (App.tsx `SensorData`). -/
structure SensorData where
  latitude : ℚ
  longitude : ℚ
  accelerometer : Vec3
  gyroscope : Vec3
  timestamp : ℤ
deriving DecidableEq

/-- App.tsx `lowPassFilter`: `previous + alpha * (current - previous)`. -/
def lowPassFilter (current previous alpha : ℚ) : ℚ :=
  previous + alpha * (current - previous)

/-- App.tsx `convertToSensorData`: accelerometer counts divided by 16384,
gyroscope counts divided by 131. -/
def convertToSensorData (row : SensorDataRow) : SensorData :=
  { latitude := row.latitude
    longitude := row.longitude
    accelerometer := ⟨row.acc_x / 16384, row.acc_y / 16384, row.acc_z / 16384⟩
    gyroscope := ⟨row.gyro_x / 131, row.gyro_y / 131, row.gyro_z / 131⟩
    timestamp := row.created_at }

/-- The smoothing factor used in `handleNewData` (`smoothAlpha = 0.1`). -/
def smoothAlpha : ℚ := 1 / 10

/-- Axis-wise smoothing of the converted acceleration against the previous
smoothed acceleration (App.tsx `handleNewData`, step 1). -/
def smoothAccel (prev raw : Vec3) : Vec3 :=
  ⟨lowPassFilter raw.x prev.x smoothAlpha,
   lowPassFilter raw.y prev.y smoothAlpha,
   lowPassFilter raw.z prev.z smoothAlpha⟩

/-- `finalData` of `handleNewData`: the converted row with the accelerometer
replaced by its smoothed value. -/
def conditionSample (prev : Vec3) (row : SensorDataRow) : SensorData :=
  let raw := convertToSensorData row
  { raw with accelerometer := smoothAccel prev raw.accelerometer }

/-- One reading appended to the classifier history
(`detectionService.addReading`). -/
structure Reading where
  ax : ℚ
  ay : ℚ
  az : ℚ
  gx : ℚ
  gy : ℚ
  gz : ℚ
deriving DecidableEq

/-- Classifier verdict (`detectWithHistory` result). -/
structure Verdict where
  isAccident : Bool
  dangerPercentage : ℚ
deriving DecidableEq

/-- Status column of an `accident_logs` row. -/
inductive AlertStatus where
  | pending
  | confirmed
  | cancelled
deriving DecidableEq

/-- An `accident_logs` row as inserted by `handleAccidentDetected`. -/
structure AlertRecord where
  id : ℕ
  latitude : ℚ
  longitude : ℚ
  danger_percentage : ℚ
  acc_x : ℚ
  acc_y : ℚ
  acc_z : ℚ
  gyro_x : ℚ
  gyro_y : ℚ
  gyro_z : ℚ
  status : AlertStatus
  user_responded : Bool
  emails_sent : Bool
deriving DecidableEq

/-- A `user_settings` row. -/
structure UserSettings where
  user_email : String
  emergency_contact_1 : String
  emergency_contact_2 : String
deriving DecidableEq

/-- The `emailType` discriminator of the edge-function payload; `other`
stands for any string different from the two recognised values. -/
inductive EmailType where
  | user_confirmation
  | emergency_alert
  | other
deriving DecidableEq

/-- One outbound call to the `send-accident-alert` edge function. -/
structure Notice where
  userEmail : String
  contact1 : String
  contact2 : String
  latitude : ℚ
  longitude : ℚ
  dangerPercentage : ℚ
  accidentId : ℕ
  emailType : EmailType
deriving DecidableEq

/-- JavaScript `a || b` on strings: the empty string is falsy. -/
def orDefault (s d : String) : String :=
  if s = "" then d else s

/-- The JSON body built for a `send-accident-alert` call, with the default
fallbacks of App.tsx (`"telegram-user"`, `"telegram-group"`, `""`). -/
def mkNotice (st : UserSettings) (lat lon danger : ℚ) (accId : ℕ)
    (ty : EmailType) : Notice :=
  { userEmail := orDefault st.user_email "telegram-user"
    contact1 := orDefault st.emergency_contact_1 "telegram-group"
    contact2 := orDefault st.emergency_contact_2 ""
    latitude := lat
    longitude := lon
    dangerPercentage := danger
    accidentId := accId
    emailType := ty }

/-- The `activeAccident` React state: `{ id, dangerPercentage }`. -/
structure ActiveAccident where
  id : ℕ
  dangerPercentage : ℚ
deriving DecidableEq

/-- The escalation timeout armed by `handleAccidentDetected`: it captures the
accident id, the settings row fetched at arm time, the coordinates and danger
value, and the delay (30000 ms in the source). -/
structure ArmedTimer where
  accidentId : ℕ
  settings : Option UserSettings
  latitude : ℚ
  longitude : ℚ
  dangerPercentage : ℚ
  delayMs : ℕ
deriving DecidableEq

/-- The suspension points of a running `sendEmergencyAlerts` callback.  When
the 30-second timer fires with a captured settings row, the callback sends
the emergency fetch and suspends awaiting it (`fetchInFlight`); resuming, it
dispatches the Supabase confirm update and suspends awaiting it
(`updateInFlight`); resuming again, it finishes synchronously
(`setActiveAccident(null)` and the unlock timeout).  The `ArmedTimer` data
plays the role of the callback's closure (accidentId, settings, coordinates,
danger).  Between these suspension points the cancel handler can run. -/
inductive EscalationPhase where
  | fetchInFlight (t : ArmedTimer)
  | updateInFlight (t : ArmedTimer)
deriving DecidableEq

/-- The mutable state of the App component that the modelled handlers touch.
`records` is the `accident_logs` table, `notices` the list of edge-function
calls issued so far, `unlockTimeouts` the pending `setTimeout` delays that
will reset `isTriggered`, and `settings` the (constant) `user_settings` row,
`none` when the table is empty (`maybeSingle()` returns null).
`accidentTimeout` is the content of `accidentTimeoutRef`: it is written when
arming and nulled only by the cancel handler — the source never clears the
ref when the timer fires, so the cancel guard still sees it set then.
`timerPending` says whether the armed timeout has neither fired nor been
cleared (a `setTimeout` handle fires at most once, and `clearTimeout`
prevents a not-yet-fired one).  `escalation` is the in-flight
`sendEmergencyAlerts` callback, if one is suspended at an await. -/
structure AppState where
  sensorData : Option SensorData
  isConnected : Bool
  lastUpdate : Option ℤ
  activeAccident : Option ActiveAccident
  prevAccel : Vec3
  isTriggered : Bool
  history : List Reading
  accidentTimeout : Option ArmedTimer
  timerPending : Bool
  escalation : Option EscalationPhase
  unlockTimeouts : List ℕ
  records : List AlertRecord
  notices : List Notice
  nextId : ℕ
  settings : Option UserSettings
deriving DecidableEq

/-- Initial component state: `prevAccel = {x: 0, y: 0, z: 1}`,
`isTriggered = false`, no active accident, no timer, empty history. -/
def initState (stg : Option UserSettings) : AppState :=
  { sensorData := none
    isConnected := false
    lastUpdate := none
    activeAccident := none
    prevAccel := ⟨0, 0, 1⟩
    isTriggered := false
    history := []
    accidentTimeout := none
    timerPending := false
    escalation := none
    unlockTimeouts := []
    records := []
    notices := []
    nextId := 0
    settings := stg }

/-- The state updates of `handleNewData` up to and including
`detectionService.addReading`: smoothing, display state, connectivity
timestamp, history append. -/
def afterReading (s : AppState) (row : SensorDataRow) : AppState :=
  let finalData := conditionSample s.prevAccel row
  let reading : Reading :=
    ⟨finalData.accelerometer.x, finalData.accelerometer.y,
     finalData.accelerometer.z, finalData.gyroscope.x,
     finalData.gyroscope.y, finalData.gyroscope.z⟩
  { s with
      prevAccel := finalData.accelerometer
      sensorData := some finalData
      isConnected := true
      lastUpdate := some row.created_at
      history := s.history ++ [reading] }

/-- The rollover check of `handleNewData`: `zValue < 0.0` on the smoothed
acceleration. -/
def isUpsideDownOf (s : AppState) (row : SensorDataRow) : Bool :=
  decide ((conditionSample s.prevAccel row).accelerometer.z < 0)

/-- The trigger condition of `handleNewData`:
`(result.isAccident || isUpsideDown) && !activeAccident && !isTriggered`. -/
def triggerGuard (detect : List Reading → Verdict) (s : AppState)
    (row : SensorDataRow) : Bool :=
  ((detect (afterReading s row).history).isAccident || isUpsideDownOf s row)
    && (afterReading s row).activeAccident.isNone
    && !(afterReading s row).isTriggered

/-- `finalDanger` of `handleNewData`: 100 when upside-down, otherwise the
classifier's danger percentage. -/
def finalDangerOf (detect : List Reading → Verdict) (s : AppState)
    (row : SensorDataRow) : ℚ :=
  if isUpsideDownOf s row then 100
  else (detect (afterReading s row).history).dangerPercentage

/-- `handleAccidentDetected`: on persistence success, insert a pending
`accident_logs` row, set `activeAccident`, send the confirmation notice when
a settings row exists, and arm the 30000 ms escalation timeout.  On
persistence failure (`logError || !accidentLog`) the function returns before
any of those effects. -/
def handleAccidentDetected (s : AppState) (persistOk : Bool)
    (lat lon danger : ℚ) (row : SensorDataRow) : AppState :=
  if persistOk then
    let rec0 : AlertRecord :=
      { id := s.nextId
        latitude := lat
        longitude := lon
        danger_percentage := danger
        acc_x := row.acc_x
        acc_y := row.acc_y
        acc_z := row.acc_z
        gyro_x := row.gyro_x
        gyro_y := row.gyro_y
        gyro_z := row.gyro_z
        status := .pending
        user_responded := false
        emails_sent := false }
    let s1 := { s with
        records := s.records ++ [rec0]
        nextId := s.nextId + 1
        activeAccident := some ⟨s.nextId, danger⟩ }
    let s2 :=
      match s1.settings with
      | some st =>
          let notice := mkNotice st lat lon danger s.nextId .user_confirmation
          { s1 with notices := s1.notices ++ [notice] }
      | none => s1
    let timer : ArmedTimer := ⟨s.nextId, s.settings, lat, lon, danger, 30000⟩
    { s2 with accidentTimeout := some timer, timerPending := true }
  else s

/-- `handleNewData`: conditioning, classifier feed, rollover check, and the
locked trigger.  `persistOk` is the outcome of the `accident_logs` insert. -/
def handleNewData (detect : List Reading → Verdict) (s : AppState)
    (row : SensorDataRow) (persistOk : Bool) : AppState :=
  let s1 := afterReading s row
  if triggerGuard detect s row then
    handleAccidentDetected { s1 with isTriggered := true } persistOk
      (conditionSample s.prevAccel row).latitude
      (conditionSample s.prevAccel row).longitude
      (finalDangerOf detect s row) row
  else s1

/-- The per-row effect of the
`update({ status: 'confirmed', emails_sent: true }).eq('id', accidentId)`
call of `sendEmergencyAlerts`. -/
def confirmRecord (tid : ℕ) (r : AlertRecord) : AlertRecord :=
  if r.id = tid then { r with status := .confirmed, emails_sent := true }
  else r

/-- The per-row effect of the
`update({ status: 'cancelled', user_responded: true }).eq('id', id)`
call of `handleCancelAccident`. -/
def cancelRecord (aid : ℕ) (r : AlertRecord) : AlertRecord :=
  if r.id = aid then { r with status := .cancelled, user_responded := true }
  else r

/-- The synchronous prefix of `sendEmergencyAlerts`, run when the 30-second
timer fires.  With a captured settings row it dispatches the emergency fetch
(the notice leaves the machine at the `fetch(...)` call) and suspends at the
first await; without one the `if (settings)` block is skipped entirely and
the remainder runs synchronously: clear `activeAccident` and schedule the
5000 ms unlock.  Note the source never clears `accidentTimeoutRef` here. -/
def escalationStart (s : AppState) (t : ArmedTimer) : AppState :=
  match t.settings with
  | some st =>
      let notice := mkNotice st t.latitude t.longitude t.dangerPercentage
        t.accidentId .emergency_alert
      { s with notices := s.notices ++ [notice],
               escalation := some (.fetchInFlight t) }
  | none =>
      { s with activeAccident := none,
               unlockTimeouts := s.unlockTimeouts ++ [5000] }

/-- One resumption of a suspended `sendEmergencyAlerts` callback.  When the
emergency fetch resolves, the callback dispatches the
`update({status:'confirmed', emails_sent:true})` (the row change is
serialised at this dispatch) and suspends awaiting it; when that resolves,
the synchronous tail clears `activeAccident` and schedules the 5000 ms
unlock.  With no callback in flight this is a no-op. -/
def escalationResumeStep (s : AppState) : AppState :=
  match s.escalation with
  | some (.fetchInFlight t) =>
      { s with records := s.records.map (confirmRecord t.accidentId),
               escalation := some (.updateInFlight t) }
  | some (.updateInFlight _) =>
      { s with activeAccident := none,
               unlockTimeouts := s.unlockTimeouts ++ [5000],
               escalation := none }
  | none => s

/-- `handleCancelAccident`: guarded by `activeAccident && accidentTimeoutRef`
(the ref is still set after the timer has fired, since firing never nulls
it), it clears the timeout (`clearTimeout` plus nulling the ref), updates the
record to cancelled with `user_responded = true`, clears `activeAccident`,
resets the classifier history, and schedules the 5000 ms unlock.  It cannot
stop an escalation callback that is already suspended at an await. -/
def handleCancelAccident (s : AppState) : AppState :=
  match s.activeAccident, s.accidentTimeout with
  | some a, some _ =>
      { s with
          accidentTimeout := none
          timerPending := false
          records := s.records.map (cancelRecord a.id)
          activeAccident := none
          history := []
          unlockTimeouts := s.unlockTimeouts ++ [5000] }
  | _, _ => s

/-- The `checkTimeout` interval body: mark disconnected when
`now - lastUpdate > 5000`. -/
def checkTimeout (s : AppState) (now : ℤ) : AppState :=
  match s.lastUpdate with
  | some t => if now - t > 5000 then { s with isConnected := false } else s
  | none => s

/-- The asynchronous inputs of the component: a sample arriving (with the
persistence oracle), the escalation timeout firing, an awaited promise of
the suspended escalation callback resolving, the user cancel action, one
pending unlock timeout firing, and one connectivity-check tick. -/
inductive Event where
  | sample (row : SensorDataRow) (persistOk : Bool)
  | timerFire
  | escalationResume
  | cancel
  | unlockFire
  | tick (now : ℤ)

/-- One turn of the single-threaded event loop.  Each event runs one
synchronous segment of source code: `timerFire` runs the escalation callback
up to its first await (it fires only while the armed timeout is pending, and
leaves `accidentTimeoutRef` set, as the source does), `escalationResume`
runs the callback from one await to the next.  A `timerFire` with no pending
timeout, an `escalationResume` with no suspended callback and an
`unlockFire` with no pending unlock are no-ops. -/
def step (detect : List Reading → Verdict) (s : AppState) : Event → AppState
  | .sample row ok => handleNewData detect s row ok
  | .timerFire =>
      if s.timerPending then
        match s.accidentTimeout with
        | some t => escalationStart { s with timerPending := false } t
        | none => s
      else s
  | .escalationResume => escalationResumeStep s
  | .cancel => handleCancelAccident s
  | .unlockFire =>
      match s.unlockTimeouts with
      | [] => s
      | _ :: rest => { s with unlockTimeouts := rest, isTriggered := false }
  | .tick now => checkTimeout s now

/-- Processing a list of events in order. -/
def run (detect : List Reading → Verdict) (s : AppState) :
    List Event → AppState
  | [] => s
  | e :: es => run detect (step detect s e) es

/-! ### The edge function `send-accident-alert` -/

/-- The JSON body of a `send-accident-alert` request.  `latitude`,
`longitude` and `dangerPercentage` are `Option` because the function performs
no validation: a parsed JSON object may lack any of them (JavaScript
`undefined`). -/
structure AccidentData where
  userEmail : String
  contact1 : String
  contact2 : String
  latitude : Option ℚ
  longitude : Option ℚ
  dangerPercentage : Option ℚ
  accidentId : String
  emailType : EmailType
deriving DecidableEq

/-- An incoming request: `body = none` models a body that fails to parse as
JSON (`req.json()` throws). -/
structure EdgeRequest where
  method : String
  body : Option AccidentData
deriving DecidableEq

/-- The observable outcome of one `send-accident-alert` invocation.
`dispatched` lists external notifications actually sent (the function only
logs, so it is empty on every path); `error` records whether the 500 body
carries an error message. -/
structure EdgeResponse where
  status : ℕ
  success : Option Bool
  error : Bool
  recipients : Option (List String)
  dispatched : List String
deriving DecidableEq

/-- Whether building the email content throws: both template branches
interpolate `latitude.toFixed(6)` and `longitude.toFixed(6)`, which throw a
`TypeError` when the field is `undefined`; any other `emailType` skips both
branches and never calls `toFixed`. -/
def contentBuildThrows (d : AccidentData) : Bool :=
  match d.emailType with
  | .user_confirmation => d.latitude.isNone || d.longitude.isNone
  | .emergency_alert => d.latitude.isNone || d.longitude.isNone
  | .other => false

/-- The `Deno.serve` handler of `send-accident-alert`: OPTIONS preflight gets
an empty 200; a parse or content-building throw is caught and answered with
a 500 carrying `error.message`; otherwise a 200 with `success: true` and the
recipients list (`[userEmail]` for `user_confirmation`, `[contact1,
contact2]` for anything else). -/
def serveAccidentAlert (req : EdgeRequest) : EdgeResponse :=
  if req.method = "OPTIONS" then
    { status := 200, success := none, error := false, recipients := none,
      dispatched := [] }
  else
    match req.body with
    | none =>
        { status := 500, success := none, error := true, recipients := none,
          dispatched := [] }
    | some d =>
        if contentBuildThrows d then
          { status := 500, success := none, error := true, recipients := none,
            dispatched := [] }
        else
          { status := 200, success := some true, error := false,
            recipients := some (if d.emailType = .user_confirmation
              then [d.userEmail] else [d.contact1, d.contact2]),
            dispatched := [] }

/-! ### Fixtures used by concrete witnesses and counterexamples -/

/-- A classifier that always reports an accident with danger 90. -/
def detectAlways : List Reading → Verdict := fun _ => ⟨true, 90⟩

/-- A classifier that never reports an accident. -/
def detectNever : List Reading → Verdict := fun _ => ⟨false, 0⟩

/-- A resting upright sample row: converted acceleration (0, 0, 1),
timestamp 1000 ms. -/
def rowQ : SensorDataRow := ⟨0, 0, 0, 0, 16384, 0, 0, 0, 1000⟩

/-- An upside-down sample row: converted acceleration (0, 0, -10). -/
def rowU : SensorDataRow := ⟨0, 0, 0, 0, -163840, 0, 0, 0, 2000⟩

/-- A fully populated settings row. -/
def st0 : UserSettings :=
  ⟨"rider@example.com", "one@example.com", "two@example.com"⟩

/-! ### Projection lemmas -/

@[simp] theorem afterReading_activeAccident (s : AppState)
    (row : SensorDataRow) :
    (afterReading s row).activeAccident = s.activeAccident := rfl

@[simp] theorem afterReading_isTriggered (s : AppState) (row : SensorDataRow) :
    (afterReading s row).isTriggered = s.isTriggered := rfl

@[simp] theorem afterReading_records (s : AppState) (row : SensorDataRow) :
    (afterReading s row).records = s.records := rfl

@[simp] theorem afterReading_notices (s : AppState) (row : SensorDataRow) :
    (afterReading s row).notices = s.notices := rfl

@[simp] theorem afterReading_accidentTimeout (s : AppState)
    (row : SensorDataRow) :
    (afterReading s row).accidentTimeout = s.accidentTimeout := rfl

@[simp] theorem afterReading_unlockTimeouts (s : AppState)
    (row : SensorDataRow) :
    (afterReading s row).unlockTimeouts = s.unlockTimeouts := rfl

@[simp] theorem afterReading_nextId (s : AppState) (row : SensorDataRow) :
    (afterReading s row).nextId = s.nextId := rfl

@[simp] theorem afterReading_settings (s : AppState) (row : SensorDataRow) :
    (afterReading s row).settings = s.settings := rfl

@[simp] theorem afterReading_isConnected (s : AppState) (row : SensorDataRow) :
    (afterReading s row).isConnected = true := rfl

@[simp] theorem afterReading_lastUpdate (s : AppState) (row : SensorDataRow) :
    (afterReading s row).lastUpdate = some row.created_at := rfl

@[simp] theorem conditionSample_latitude (prev : Vec3) (row : SensorDataRow) :
    (conditionSample prev row).latitude = row.latitude := rfl

@[simp] theorem conditionSample_longitude (prev : Vec3) (row : SensorDataRow) :
    (conditionSample prev row).longitude = row.longitude := rfl

@[simp] theorem conditionSample_gyroscope (prev : Vec3) (row : SensorDataRow) :
    (conditionSample prev row).gyroscope =
      ⟨row.gyro_x / 131, row.gyro_y / 131, row.gyro_z / 131⟩ := rfl

@[simp] theorem confirmRecord_id (tid : ℕ) (r : AlertRecord) :
    (confirmRecord tid r).id = r.id := by
  unfold confirmRecord; split <;> rfl

@[simp] theorem cancelRecord_id (aid : ℕ) (r : AlertRecord) :
    (cancelRecord aid r).id = r.id := by
  unfold cancelRecord; split <;> rfl

theorem confirmRecord_of_ne (tid : ℕ) (r : AlertRecord) (h : ¬r.id = tid) :
    confirmRecord tid r = r := by
  unfold confirmRecord; exact if_neg h

theorem cancelRecord_of_ne (aid : ℕ) (r : AlertRecord) (h : ¬r.id = aid) :
    cancelRecord aid r = r := by
  unfold cancelRecord; exact if_neg h

/-! ### Shape lemmas for the handlers -/

/-- With the lock already taken (`isTriggered = true`) the trigger guard is
false. -/
theorem triggerGuard_of_triggered (detect : List Reading → Verdict)
    (s : AppState) (row : SensorDataRow) (h : s.isTriggered = true) :
    triggerGuard detect s row = false := by
  unfold triggerGuard
  rw [afterReading_isTriggered, h]
  simp

/-- With an active accident the trigger guard is false. -/
theorem triggerGuard_of_active (detect : List Reading → Verdict)
    (s : AppState) (row : SensorDataRow) (a : ActiveAccident)
    (h : s.activeAccident = some a) :
    triggerGuard detect s row = false := by
  unfold triggerGuard
  rw [afterReading_activeAccident, h]
  simp

/-- When the guard is false, `handleNewData` is exactly the conditioning and
history update. -/
theorem handleNewData_of_guard_false (detect : List Reading → Verdict)
    (s : AppState) (row : SensorDataRow) (ok : Bool)
    (hg : triggerGuard detect s row = false) :
    handleNewData detect s row ok = afterReading s row := by
  unfold handleNewData
  rw [hg]
  simp

/-- When the guard is true, `handleNewData` locks and delegates to
`handleAccidentDetected`. -/
theorem handleNewData_of_guard_true (detect : List Reading → Verdict)
    (s : AppState) (row : SensorDataRow) (ok : Bool)
    (hg : triggerGuard detect s row = true) :
    handleNewData detect s row ok =
      handleAccidentDetected { afterReading s row with isTriggered := true }
        ok row.latitude row.longitude (finalDangerOf detect s row) row := by
  unfold handleNewData
  rw [hg]
  simp

/-- On persistence failure `handleAccidentDetected` is the identity. -/
theorem handleAccidentDetected_fail (s : AppState) (lat lon danger : ℚ)
    (row : SensorDataRow) :
    handleAccidentDetected s false lat lon danger row = s := rfl

/-- The fields written by a successful `handleAccidentDetected`. -/
theorem handleAccidentDetected_ok_fields (s : AppState) (lat lon danger : ℚ)
    (row : SensorDataRow) :
    (handleAccidentDetected s true lat lon danger row).records =
      s.records ++ [⟨s.nextId, lat, lon, danger, row.acc_x, row.acc_y,
        row.acc_z, row.gyro_x, row.gyro_y, row.gyro_z, .pending, false,
        false⟩] ∧
    (handleAccidentDetected s true lat lon danger row).activeAccident =
      some ⟨s.nextId, danger⟩ ∧
    (handleAccidentDetected s true lat lon danger row).accidentTimeout =
      some ⟨s.nextId, s.settings, lat, lon, danger, 30000⟩ ∧
    (handleAccidentDetected s true lat lon danger row).nextId = s.nextId + 1 := by
  unfold handleAccidentDetected
  rcases hst : s.settings with _ | st <;> simp [hst]

/-- The fields `handleAccidentDetected` never writes. -/
theorem handleAccidentDetected_preserved (s : AppState) (ok : Bool)
    (lat lon danger : ℚ) (row : SensorDataRow) :
    (handleAccidentDetected s ok lat lon danger row).lastUpdate =
      s.lastUpdate ∧
    (handleAccidentDetected s ok lat lon danger row).isConnected =
      s.isConnected ∧
    (handleAccidentDetected s ok lat lon danger row).history = s.history ∧
    (handleAccidentDetected s ok lat lon danger row).isTriggered =
      s.isTriggered ∧
    (handleAccidentDetected s ok lat lon danger row).settings = s.settings ∧
    (handleAccidentDetected s ok lat lon danger row).unlockTimeouts =
      s.unlockTimeouts := by
  unfold handleAccidentDetected
  rcases ok with _ | _
  · simp
  · rcases hst : s.settings with _ | st <;> simp [hst]

/-! ### C1 — trigger lock -/

/-- A sample arriving while an alert is active changes none of the alert
state. -/
theorem handleNewData_locked (detect : List Reading → Verdict) (s : AppState)
    (row : SensorDataRow) (ok : Bool) (a : ActiveAccident)
    (h1 : s.activeAccident = some a) :
    (handleNewData detect s row ok).records = s.records ∧
    (handleNewData detect s row ok).activeAccident = some a ∧
    (handleNewData detect s row ok).isTriggered = s.isTriggered := by
  rw [handleNewData_of_guard_false detect s row ok
    (triggerGuard_of_active detect s row a h1)]
  exact ⟨rfl, by rw [afterReading_activeAccident, h1], rfl⟩

/-- C1 (amended): while one alert is active and the trigger lock is closed,
processing any sequence of incoming samples — however many of them qualify
through the classifier or the rollover check, and whatever the persistence
oracle answers — creates no second AlertRecord. -/
theorem C1_lock_no_second_record (detect : List Reading → Verdict)
    (rows : List (SensorDataRow × Bool)) :
    ∀ (s : AppState) (a : ActiveAccident),
      s.activeAccident = some a → s.isTriggered = true →
      (run detect s (rows.map fun p => Event.sample p.1 p.2)).records
        = s.records := by
  induction rows with
  | nil => intro s a _ _; rfl
  | cons p ps ih =>
      intro s a h1 h2
      obtain ⟨hrec, hact, htrig⟩ := handleNewData_locked detect s p.1 p.2 a h1
      have h3 : run detect s ((p :: ps).map fun q => Event.sample q.1 q.2)
          = run detect (handleNewData detect s p.1 p.2)
              (ps.map fun q => Event.sample q.1 q.2) := rfl
      rw [h3, ih _ a hact (htrig.trans h2), hrec]

/-- C1 counterexample to the headline invariant: with no `user_settings` row,
an alert's escalation timer fires without confirming the record (see C4), the
lock reopens after the cooldown, and a second qualifying sample creates a
second record — leaving two AlertRecords with status Pending at once. -/
theorem C1_two_pending_counterexample :
    ((run detectAlways (initState none)
      [.sample rowQ true, .timerFire, .unlockFire, .sample rowQ true]).records.map
      (fun r => (r.id, r.status))) = [(0, .pending), (1, .pending)] := by
  decide

/-- A state with an active alert and the lock closed, for the C1 witness. -/
def sLocked : AppState :=
  { initState none with activeAccident := some ⟨0, 90⟩, isTriggered := true }

/-- C1 witness: two qualifying samples against a locked, active state leave
the records untouched. -/
theorem C1_witness :
    sLocked.activeAccident = some ⟨0, 90⟩ ∧ sLocked.isTriggered = true ∧
    (run detectAlways sLocked
      ([(rowQ, true), (rowQ, true)].map fun p => Event.sample p.1 p.2)).records
      = sLocked.records :=
  ⟨rfl, rfl, C1_lock_no_second_record detectAlways [(rowQ, true), (rowQ, true)]
    sLocked ⟨0, 90⟩ rfl rfl⟩

/-! ### C2 — persistence failure -/

/-- What a triggered sample with a failed persist actually does. -/
def C2Conclusion (detect : List Reading → Verdict) (s : AppState)
    (row : SensorDataRow) : Prop :=
  (handleNewData detect s row false).records = s.records ∧
  (handleNewData detect s row false).notices = s.notices ∧
  (handleNewData detect s row false).accidentTimeout = s.accidentTimeout ∧
  (handleNewData detect s row false).activeAccident = none ∧
  (handleNewData detect s row false).isTriggered = true

/-- C2 (amended): if persisting the AlertRecord fails, the controller indeed
does not notify, does not arm an escalation timer and records no active
alert — but the trigger lock was already closed before the persistence
attempt and is not reopened on the failure path, so subsequent qualifying
samples are ignored rather than able to retry. -/
theorem C2_persist_failure_amended (detect : List Reading → Verdict)
    (s : AppState) (row : SensorDataRow)
    (hq : triggerGuard detect s row = true) : C2Conclusion detect s row := by
  have hnone : s.activeAccident = none := by
    rcases h : s.activeAccident with _ | a
    · rfl
    · unfold triggerGuard at hq
      rw [afterReading_activeAccident, h] at hq
      simp at hq
  unfold C2Conclusion
  rw [handleNewData_of_guard_true detect s row false hq,
    handleAccidentDetected_fail]
  exact ⟨rfl, rfl, rfl, by simpa using hnone, rfl⟩

/-- C2 counterexample: after one qualifying sample whose persist fails, the
lock is closed (`isTriggered = true`), no record exists, and a second
qualifying sample with a succeeding persist still creates no record — the
claimed retry is impossible. -/
theorem C2_lock_stuck_counterexample :
    (run detectAlways (initState none) [.sample rowQ false]).isTriggered
      = true ∧
    (run detectAlways (initState none) [.sample rowQ false]).records = [] ∧
    (run detectAlways (initState none)
      [.sample rowQ false, .sample rowQ true]).records = [] := by decide

/-- C2 witness: the amended behaviour at a concrete qualifying sample. -/
theorem C2_witness :
    triggerGuard detectAlways (initState none) rowQ = true ∧
    C2Conclusion detectAlways (initState none) rowQ :=
  ⟨by decide,
    C2_persist_failure_amended detectAlways (initState none) rowQ (by decide)⟩

/-! ### C3 — rollover override -/

/-- What a trigger on an upside-down sample produces. -/
def C3Conclusion (detect : List Reading → Verdict) (s : AppState)
    (row : SensorDataRow) : Prop :=
  (handleNewData detect s row true).activeAccident =
    some ⟨s.nextId, 100⟩ ∧
  (∃ r ∈ (handleNewData detect s row true).records,
    r.id = s.nextId ∧ r.danger_percentage = 100 ∧ r.status = .pending) ∧
  (handleNewData detect s row true).accidentTimeout =
    some ⟨s.nextId, s.settings, row.latitude, row.longitude, 100, 30000⟩

/-- C3: whenever the smoothed (conditioned) Z acceleration of the processed
sample is negative, the lock is open and no alert is active, the controller
arms with dangerPercentage = 100 — a pending record, an active alert and a
30000 ms escalation timer all carrying danger 100 — for every classifier
whatsoever. -/
theorem C3_rollover_always_full_danger (detect : List Reading → Verdict)
    (s : AppState) (row : SensorDataRow)
    (hz : (conditionSample s.prevAccel row).accelerometer.z < 0)
    (hactive : s.activeAccident = none) (hlock : s.isTriggered = false) :
    C3Conclusion detect s row := by
  have hup : isUpsideDownOf s row = true := by
    unfold isUpsideDownOf; exact decide_eq_true hz
  have hg : triggerGuard detect s row = true := by
    unfold triggerGuard
    rw [hup, afterReading_activeAccident, hactive, afterReading_isTriggered,
      hlock]
    simp
  have hd : finalDangerOf detect s row = 100 := by
    unfold finalDangerOf; rw [hup]; rfl
  unfold C3Conclusion
  rw [handleNewData_of_guard_true detect s row true hg, hd]
  obtain ⟨hrec, hact, htim, _⟩ := handleAccidentDetected_ok_fields
    { afterReading s row with isTriggered := true }
    row.latitude row.longitude 100 row
  refine ⟨by rw [hact]; rfl, ?_, by rw [htim]; rfl⟩
  rw [hrec]
  exact ⟨_, List.mem_append_right _ (List.mem_singleton_self _), rfl, rfl, rfl⟩

/-- C3 witness: an upside-down sample (converted Z = -10 g) from the initial
idle state arms with danger 100 although the classifier reports nothing. -/
theorem C3_witness :
    (conditionSample (initState none).prevAccel rowU).accelerometer.z < 0 ∧
    (initState none).activeAccident = none ∧
    (initState none).isTriggered = false ∧
    C3Conclusion detectNever (initState none) rowU := by
  have hz : (conditionSample (initState none).prevAccel rowU).accelerometer.z
      < 0 := by
    norm_num [conditionSample, convertToSensorData, smoothAccel,
      lowPassFilter, smoothAlpha, initState, rowU]
  exact ⟨hz, rfl, rfl,
    C3_rollover_always_full_danger detectNever (initState none) rowU hz rfl
      rfl⟩

/-! ### Step shape lemmas -/

theorem step_sample (detect : List Reading → Verdict) (s : AppState)
    (row : SensorDataRow) (ok : Bool) :
    step detect s (.sample row ok) = handleNewData detect s row ok := rfl

theorem step_timerFire_armed (detect : List Reading → Verdict) (s : AppState)
    (t : ArmedTimer) (hp : s.timerPending = true)
    (ht : s.accidentTimeout = some t) :
    step detect s .timerFire =
      escalationStart { s with timerPending := false } t := by
  unfold step
  rw [hp, ht]
  rfl

theorem step_timerFire_not_pending (detect : List Reading → Verdict)
    (s : AppState) (hp : s.timerPending = false) :
    step detect s .timerFire = s := by
  unfold step
  rw [hp]
  rfl

theorem step_timerFire_no_ref (detect : List Reading → Verdict)
    (s : AppState) (ht : s.accidentTimeout = none) :
    step detect s .timerFire = s := by
  have h0 : step detect s .timerFire =
      (if s.timerPending then
        match s.accidentTimeout with
        | some t => escalationStart { s with timerPending := false } t
        | none => s
      else s) := rfl
  rw [h0, ht]
  split <;> rfl

theorem step_escalationResume (detect : List Reading → Verdict)
    (s : AppState) :
    step detect s .escalationResume = escalationResumeStep s := rfl

theorem step_cancel (detect : List Reading → Verdict) (s : AppState) :
    step detect s .cancel = handleCancelAccident s := rfl

theorem step_tick (detect : List Reading → Verdict) (s : AppState) (now : ℤ) :
    step detect s (.tick now) = checkTimeout s now := rfl

theorem escalationStart_some (s : AppState) (t : ArmedTimer)
    (st : UserSettings) (hst : t.settings = some st) :
    escalationStart s t =
      { s with
          notices := s.notices ++ [mkNotice st t.latitude t.longitude
            t.dangerPercentage t.accidentId .emergency_alert]
          escalation := some (.fetchInFlight t) } := by
  unfold escalationStart
  rw [hst]

theorem escalationStart_none (s : AppState) (t : ArmedTimer)
    (hst : t.settings = none) :
    escalationStart s t =
      { s with activeAccident := none,
               unlockTimeouts := s.unlockTimeouts ++ [5000] } := by
  unfold escalationStart
  rw [hst]

theorem escalationResumeStep_fetch (s : AppState) (t : ArmedTimer)
    (he : s.escalation = some (.fetchInFlight t)) :
    escalationResumeStep s =
      { s with records := s.records.map (confirmRecord t.accidentId),
               escalation := some (.updateInFlight t) } := by
  unfold escalationResumeStep
  rw [he]

theorem escalationResumeStep_update (s : AppState) (t : ArmedTimer)
    (he : s.escalation = some (.updateInFlight t)) :
    escalationResumeStep s =
      { s with activeAccident := none,
               unlockTimeouts := s.unlockTimeouts ++ [5000],
               escalation := none } := by
  unfold escalationResumeStep
  rw [he]

theorem escalationResumeStep_none (s : AppState) (he : s.escalation = none) :
    escalationResumeStep s = s := by
  unfold escalationResumeStep
  rw [he]

theorem handleCancelAccident_some (s : AppState) (a : ActiveAccident)
    (t : ArmedTimer) (ha : s.activeAccident = some a)
    (ht : s.accidentTimeout = some t) :
    handleCancelAccident s =
      { s with
          accidentTimeout := none
          timerPending := false
          records := s.records.map (cancelRecord a.id)
          activeAccident := none
          history := []
          unlockTimeouts := s.unlockTimeouts ++ [5000] } := by
  unfold handleCancelAccident
  rw [ha, ht]

/-! ### C4 — escalation on timer expiry -/

/-- What the timer expiry followed by the two resumptions of the escalation
callback — the timer firing and the callback running to completion with no
interleaved user action — does when a settings row was captured at arm
time.  The `accidentTimeoutRef` is deliberately not asserted cleared: the
source never nulls it when the timer fires. -/
def C4Conclusion (detect : List Reading → Verdict) (s : AppState)
    (t : ArmedTimer) (st : UserSettings) : Prop :=
  (run detect s [.timerFire, .escalationResume, .escalationResume]).notices
    = s.notices ++ [mkNotice st t.latitude t.longitude t.dangerPercentage
      t.accidentId .emergency_alert] ∧
  (∀ r ∈ (run detect s
      [.timerFire, .escalationResume, .escalationResume]).records,
    r.id = t.accidentId → r.status = .confirmed ∧ r.emails_sent = true) ∧
  (∃ r ∈ (run detect s
      [.timerFire, .escalationResume, .escalationResume]).records,
    r.id = t.accidentId ∧ r.status = .confirmed ∧ r.emails_sent = true) ∧
  (run detect s
    [.timerFire, .escalationResume, .escalationResume]).activeAccident
    = none ∧
  (run detect s
    [.timerFire, .escalationResume, .escalationResume]).timerPending
    = false ∧
  (run detect s
    [.timerFire, .escalationResume, .escalationResume]).escalation = none ∧
  (run detect s
    [.timerFire, .escalationResume, .escalationResume]).unlockTimeouts
    = s.unlockTimeouts ++ [5000]

/-- C4 (amended): when the 30000 ms escalation timer fires uncancelled and
its callback runs to completion (fire, fetch resolution, update resolution)
with a user-settings row found at arm time, the controller emits exactly one
emergency notice, marks the armed record Confirmed with emails_sent = true,
clears the active-alert reference and schedules the lock reopening after the
5000 ms cooldown.  (Without a settings row the confirmation update and the
notice are both skipped — see the counterexample.) -/
theorem C4_escalation_amended (detect : List Reading → Verdict)
    (s : AppState) (t : ArmedTimer) (st : UserSettings)
    (hp : s.timerPending = true) (ht : s.accidentTimeout = some t)
    (hst : t.settings = some st) (_hdelay : t.delayMs = 30000)
    (hrec : ∃ r ∈ s.records, r.id = t.accidentId) :
    C4Conclusion detect s t st := by
  have h1 : step detect s .timerFire =
      { s with
          timerPending := false
          notices := s.notices ++ [mkNotice st t.latitude t.longitude
            t.dangerPercentage t.accidentId .emergency_alert]
          escalation := some (.fetchInFlight t) } := by
    rw [step_timerFire_armed detect s t hp ht, escalationStart_some _ t st hst]
  have h2 : step detect (step detect s .timerFire) .escalationResume =
      { s with
          timerPending := false
          notices := s.notices ++ [mkNotice st t.latitude t.longitude
            t.dangerPercentage t.accidentId .emergency_alert]
          records := s.records.map (confirmRecord t.accidentId)
          escalation := some (.updateInFlight t) } := by
    rw [h1, step_escalationResume, escalationResumeStep_fetch _ t rfl]
  have h3 : run detect s [.timerFire, .escalationResume, .escalationResume] =
      { s with
          timerPending := false
          notices := s.notices ++ [mkNotice st t.latitude t.longitude
            t.dangerPercentage t.accidentId .emergency_alert]
          records := s.records.map (confirmRecord t.accidentId)
          escalation := none
          activeAccident := none
          unlockTimeouts := s.unlockTimeouts ++ [5000] } := by
    show step detect (step detect (step detect s .timerFire)
      .escalationResume) .escalationResume = _
    rw [h2, step_escalationResume, escalationResumeStep_update _ t rfl]
  unfold C4Conclusion
  rw [h3]
  refine ⟨rfl, ?_, ?_, rfl, rfl, rfl, rfl⟩
  · intro r' hr' hid
    rcases List.mem_map.mp hr' with ⟨r, hr, rfl⟩
    have h : r.id = t.accidentId := by
      rw [confirmRecord_id] at hid; exact hid
    constructor <;> simp [confirmRecord, h]
  · rcases hrec with ⟨r, hr, hid⟩
    refine ⟨confirmRecord t.accidentId r, List.mem_map_of_mem _ hr, ?_, ?_, ?_⟩
    · rw [confirmRecord_id]; exact hid
    · simp [confirmRecord, hid]
    · simp [confirmRecord, hid]

/-- C4 counterexample: with no settings row, the fired timer neither confirms
the record nor emits any notice — the record stays Pending with
emails_sent = false while the controller clears the alert and schedules the
unlock. -/
theorem C4_no_settings_counterexample :
    ((run detectAlways (initState none)
      [.sample rowQ true, .timerFire]).records.map
      (fun r => (r.id, r.status, r.emails_sent))) = [(0, .pending, false)] ∧
    (run detectAlways (initState none)
      [.sample rowQ true, .timerFire]).notices = [] ∧
    (run detectAlways (initState none)
      [.sample rowQ true, .timerFire]).activeAccident = none ∧
    (run detectAlways (initState none)
      [.sample rowQ true, .timerFire]).unlockTimeouts = [5000] := by decide

/-- A pending record, its armed timer and the matching locked state, used by
the C4, C5 and C6 witnesses. -/
def recPend : AlertRecord :=
  ⟨0, 0, 0, 90, 0, 0, 16384, 0, 0, 0, .pending, false, false⟩

def tArmed : ArmedTimer := ⟨0, some st0, 0, 0, 90, 30000⟩

def sArmed : AppState :=
  { initState (some st0) with
      activeAccident := some ⟨0, 90⟩
      isTriggered := true
      accidentTimeout := some tArmed
      timerPending := true
      records := [recPend]
      nextId := 1 }

/-- C4 witness: the amended escalation at a concrete armed state. -/
theorem C4_witness :
    sArmed.timerPending = true ∧
    sArmed.accidentTimeout = some tArmed ∧ tArmed.settings = some st0 ∧
    tArmed.delayMs = 30000 ∧
    (∃ r ∈ sArmed.records, r.id = tArmed.accidentId) ∧
    C4Conclusion detectAlways sArmed tArmed st0 :=
  ⟨rfl, rfl, rfl, rfl, ⟨recPend, List.mem_singleton_self _, rfl⟩,
    C4_escalation_amended detectAlways sArmed tArmed st0 rfl rfl rfl rfl
      ⟨recPend, List.mem_singleton_self _, rfl⟩⟩

/-! ### C5 — user cancellation -/

/-- What a user cancel does while an alert is pending with a live timer. -/
def C5Conclusion (detect : List Reading → Verdict) (s : AppState)
    (a : ActiveAccident) : Prop :=
  (step detect s .cancel).accidentTimeout = none ∧
  (∀ r ∈ (step detect s .cancel).records, r.id = a.id →
    r.status = .cancelled ∧ r.user_responded = true) ∧
  (∃ r ∈ (step detect s .cancel).records, r.id = a.id ∧
    r.status = .cancelled ∧ r.user_responded = true) ∧
  (step detect s .cancel).history = [] ∧
  (step detect s .cancel).activeAccident = none ∧
  (step detect s .cancel).unlockTimeouts = s.unlockTimeouts ++ [5000]

/-- C5: a user cancel arriving while an alert is active and before the
escalation timer fires cancels the timer, marks the record Cancelled with
user_responded = true, resets the classifier history, clears the active
alert, and schedules the lock reopening after the 5000 ms cooldown. -/
theorem C5_cancel_pending (detect : List Reading → Verdict) (s : AppState)
    (a : ActiveAccident) (t : ArmedTimer) (ha : s.activeAccident = some a)
    (ht : s.accidentTimeout = some t)
    (hrec : ∃ r ∈ s.records, r.id = a.id) :
    C5Conclusion detect s a := by
  have hstep : step detect s .cancel =
      { s with
          accidentTimeout := none
          timerPending := false
          records := s.records.map (cancelRecord a.id)
          activeAccident := none
          history := []
          unlockTimeouts := s.unlockTimeouts ++ [5000] } := by
    rw [step_cancel, handleCancelAccident_some s a t ha ht]
  unfold C5Conclusion
  rw [hstep]
  refine ⟨rfl, ?_, ?_, rfl, rfl, rfl⟩
  · intro r' hr' hid
    rcases List.mem_map.mp hr' with ⟨r, hr, rfl⟩
    have h : r.id = a.id := by
      rw [cancelRecord_id] at hid; exact hid
    constructor <;> simp [cancelRecord, h]
  · rcases hrec with ⟨r, hr, hid⟩
    refine ⟨cancelRecord a.id r, List.mem_map_of_mem _ hr, ?_, ?_, ?_⟩
    · rw [cancelRecord_id]; exact hid
    · simp [cancelRecord, hid]
    · simp [cancelRecord, hid]

/-- C5 witness: the cancellation at a concrete armed state. -/
theorem C5_witness :
    sArmed.activeAccident = some ⟨0, 90⟩ ∧
    sArmed.accidentTimeout = some tArmed ∧
    (∃ r ∈ sArmed.records, r.id = (ActiveAccident.mk 0 90).id) ∧
    C5Conclusion detectAlways sArmed ⟨0, 90⟩ :=
  ⟨rfl, rfl, ⟨recPend, List.mem_singleton_self _, rfl⟩,
    C5_cancel_pending detectAlways sArmed ⟨0, 90⟩ tArmed rfl rfl
      ⟨recPend, List.mem_singleton_self _, rfl⟩⟩

/-! ### C6 — leaving Pending is absorbing; "exactly one" fails both ways -/

/-- Record ids are always below the id counter. -/
def Inv (s : AppState) : Prop := ∀ r ∈ s.records, r.id < s.nextId

theorem Inv_of_eq (s s' : AppState) (hrec : s'.records = s.records)
    (hn : s'.nextId = s.nextId) (h : Inv s) : Inv s' := by
  unfold Inv at h ⊢
  rw [hrec, hn]
  exact h

theorem Inv_of_map (s s' : AppState) (f : AlertRecord → AlertRecord)
    (hid : ∀ r, (f r).id = r.id) (hrec : s'.records = s.records.map f)
    (hn : s'.nextId = s.nextId) (h : Inv s) : Inv s' := by
  unfold Inv at h ⊢
  rw [hrec, hn]
  intro r hr
  rcases List.mem_map.mp hr with ⟨r0, h0, rfl⟩
  rw [hid]
  exact h r0 h0

theorem Inv_initState (stg : Option UserSettings) : Inv (initState stg) :=
  fun r hr => by simp [initState] at hr

/-- The id bound is preserved by every event. -/
theorem Inv_step (detect : List Reading → Verdict) (s : AppState) (e : Event)
    (h : Inv s) : Inv (step detect s e) := by
  cases e with
  | sample row ok =>
      rw [step_sample]
      rcases hg : triggerGuard detect s row with _ | _
      · rw [handleNewData_of_guard_false detect s row ok hg]
        exact Inv_of_eq s _ rfl rfl h
      · rw [handleNewData_of_guard_true detect s row ok hg]
        rcases ok with _ | _
        · rw [handleAccidentDetected_fail]
          exact Inv_of_eq s _ rfl rfl h
        · obtain ⟨hrec0, _, _, hnext0⟩ := handleAccidentDetected_ok_fields
            { afterReading s row with isTriggered := true }
            row.latitude row.longitude (finalDangerOf detect s row) row
          have hrec' : (handleAccidentDetected
              { afterReading s row with isTriggered := true } true
              row.latitude row.longitude (finalDangerOf detect s row)
              row).records = s.records ++
              [⟨s.nextId, row.latitude, row.longitude,
                finalDangerOf detect s row, row.acc_x, row.acc_y, row.acc_z,
                row.gyro_x, row.gyro_y, row.gyro_z, .pending, false,
                false⟩] := hrec0
          have hnext' : (handleAccidentDetected
              { afterReading s row with isTriggered := true } true
              row.latitude row.longitude (finalDangerOf detect s row)
              row).nextId = s.nextId + 1 := hnext0
          intro r hr
          rw [hrec'] at hr
          rw [hnext']
          rcases List.mem_append.mp hr with hold | hnew
          · exact Nat.lt_succ_of_lt (h r hold)
          · obtain rfl := List.mem_singleton.mp hnew
            exact Nat.lt_succ_self _
  | timerFire =>
      rcases hp : s.timerPending with _ | _
      · rw [step_timerFire_not_pending detect s hp]
        exact h
      · rcases ht : s.accidentTimeout with _ | t
        · rw [step_timerFire_no_ref detect s ht]
          exact h
        · rw [step_timerFire_armed detect s t hp ht]
          rcases hst : t.settings with _ | st
          · rw [escalationStart_none _ t hst]
            exact Inv_of_eq s _ rfl rfl h
          · rw [escalationStart_some _ t st hst]
            exact Inv_of_eq s _ rfl rfl h
  | escalationResume =>
      rw [step_escalationResume]
      rcases he : s.escalation with _ | ph
      · rw [escalationResumeStep_none s he]
        exact h
      · rcases ph with t | t
        · rw [escalationResumeStep_fetch s t he]
          exact Inv_of_map s _ (confirmRecord t.accidentId)
            (confirmRecord_id t.accidentId) rfl rfl h
        · rw [escalationResumeStep_update s t he]
          exact Inv_of_eq s _ rfl rfl h
  | cancel =>
      rw [step_cancel]
      rcases ha : s.activeAccident with _ | a
      · have hcc : handleCancelAccident s = s := by
          unfold handleCancelAccident
          rw [ha]
        rw [hcc]
        exact h
      · rcases ht : s.accidentTimeout with _ | t
        · have hcc : handleCancelAccident s = s := by
            unfold handleCancelAccident
            rw [ha, ht]
          rw [hcc]
          exact h
        · rw [handleCancelAccident_some s a t ha ht]
          exact Inv_of_map s _ (cancelRecord a.id) (cancelRecord_id a.id)
            rfl rfl h
  | unlockFire =>
      rcases hu : s.unlockTimeouts with _ | ⟨d, rest⟩
      · have hss : step detect s .unlockFire = s := by
          unfold step
          rw [hu]
        rw [hss]
        exact h
      · have hss : step detect s .unlockFire =
            { s with unlockTimeouts := rest, isTriggered := false } := by
          unfold step
          rw [hu]
        rw [hss]
        exact Inv_of_eq s _ rfl rfl h
  | tick now =>
      rcases hl : s.lastUpdate with _ | ts
      · have hcc : step detect s (.tick now) = s := by
          rw [step_tick]
          unfold checkTimeout
          rw [hl]
        rw [hcc]
        exact h
      · have hcc : step detect s (.tick now) =
            if now - ts > 5000 then { s with isConnected := false } else s := by
          rw [step_tick]
          unfold checkTimeout
          rw [hl]
        rw [hcc]
        by_cases hc : now - ts > 5000
        · rw [if_pos hc]
          exact Inv_of_eq s _ rfl rfl h
        · rw [if_neg hc]
          exact h

theorem confirmRecord_eq_or_not_pending (tid : ℕ) (r : AlertRecord) :
    confirmRecord tid r = r ∨
      ¬(confirmRecord tid r).status = AlertStatus.pending := by
  unfold confirmRecord
  split
  · right
    simp
  · left
    rfl

theorem cancelRecord_eq_or_not_pending (aid : ℕ) (r : AlertRecord) :
    cancelRecord aid r = r ∨
      ¬(cancelRecord aid r).status = AlertStatus.pending := by
  unfold cancelRecord
  split
  · right
    simp
  · left
    rfl

/-- Id `i` has settled: it is a taken id, some record carries it, and every
record carrying it is out of Pending. -/
def SettledId (i : ℕ) (s : AppState) : Prop :=
  i < s.nextId ∧ (∃ r ∈ s.records, r.id = i) ∧
  ∀ r ∈ s.records, r.id = i → ¬r.status = .pending

theorem SettledId_of_eq (i : ℕ) (s s' : AppState)
    (hrec : s'.records = s.records) (hn : s.nextId ≤ s'.nextId)
    (h : SettledId i s) : SettledId i s' := by
  obtain ⟨h1, h2, h3⟩ := h
  refine ⟨lt_of_lt_of_le h1 hn, ?_, ?_⟩
  · rw [hrec]
    exact h2
  · rw [hrec]
    exact h3

theorem SettledId_of_map (i : ℕ) (s s' : AppState)
    (f : AlertRecord → AlertRecord) (hid : ∀ r, (f r).id = r.id)
    (hst : ∀ r, f r = r ∨ ¬(f r).status = AlertStatus.pending)
    (hrec : s'.records = s.records.map f) (hn : s.nextId ≤ s'.nextId)
    (h : SettledId i s) : SettledId i s' := by
  obtain ⟨h1, ⟨r0, hr0, hid0⟩, h3⟩ := h
  refine ⟨lt_of_lt_of_le h1 hn, ?_, ?_⟩
  · rw [hrec]
    exact ⟨f r0, List.mem_map_of_mem f hr0, by rw [hid]; exact hid0⟩
  · rw [hrec]
    intro r' hr' hi'
    rcases List.mem_map.mp hr' with ⟨r, hr, rfl⟩
    rcases hst r with heq | hnp
    · rw [heq] at hi' ⊢
      exact h3 r hr hi'
    · exact hnp

/-- A settled id stays settled across any single event: new records get
fresh ids, and both record updates (`confirmRecord`, `cancelRecord`) keep
ids and never write Pending. -/
theorem SettledId_step (detect : List Reading → Verdict) (s : AppState)
    (e : Event) (i : ℕ) (h : SettledId i s) :
    SettledId i (step detect s e) := by
  cases e with
  | sample row ok =>
      rw [step_sample]
      rcases hg : triggerGuard detect s row with _ | _
      · rw [handleNewData_of_guard_false detect s row ok hg]
        exact SettledId_of_eq i s _ rfl le_rfl h
      · rw [handleNewData_of_guard_true detect s row ok hg]
        rcases ok with _ | _
        · rw [handleAccidentDetected_fail]
          exact SettledId_of_eq i s _ rfl le_rfl h
        · obtain ⟨hrec0, _, _, hnext0⟩ := handleAccidentDetected_ok_fields
            { afterReading s row with isTriggered := true }
            row.latitude row.longitude (finalDangerOf detect s row) row
          have hrec' : (handleAccidentDetected
              { afterReading s row with isTriggered := true } true
              row.latitude row.longitude (finalDangerOf detect s row)
              row).records = s.records ++
              [⟨s.nextId, row.latitude, row.longitude,
                finalDangerOf detect s row, row.acc_x, row.acc_y, row.acc_z,
                row.gyro_x, row.gyro_y, row.gyro_z, .pending, false,
                false⟩] := hrec0
          have hnext' : (handleAccidentDetected
              { afterReading s row with isTriggered := true } true
              row.latitude row.longitude (finalDangerOf detect s row)
              row).nextId = s.nextId + 1 := hnext0
          obtain ⟨h1, ⟨r0, hr0, hid0⟩, h3⟩ := h
          refine ⟨?_, ?_, ?_⟩
          · rw [hnext']
            exact Nat.lt_succ_of_lt h1
          · rw [hrec']
            exact ⟨r0, List.mem_append_left _ hr0, hid0⟩
          · rw [hrec']
            intro r hr hid
            rcases List.mem_append.mp hr with hold | hnew
            · exact h3 r hold hid
            · obtain rfl := List.mem_singleton.mp hnew
              exact absurd h1 (by rw [← hid]; exact Nat.lt_irrefl _)
  | timerFire =>
      rcases hp : s.timerPending with _ | _
      · rw [step_timerFire_not_pending detect s hp]
        exact h
      · rcases ht : s.accidentTimeout with _ | t
        · rw [step_timerFire_no_ref detect s ht]
          exact h
        · rw [step_timerFire_armed detect s t hp ht]
          rcases hst : t.settings with _ | st
          · rw [escalationStart_none _ t hst]
            exact SettledId_of_eq i s _ rfl le_rfl h
          · rw [escalationStart_some _ t st hst]
            exact SettledId_of_eq i s _ rfl le_rfl h
  | escalationResume =>
      rw [step_escalationResume]
      rcases he : s.escalation with _ | ph
      · rw [escalationResumeStep_none s he]
        exact h
      · rcases ph with t | t
        · rw [escalationResumeStep_fetch s t he]
          exact SettledId_of_map i s _ (confirmRecord t.accidentId)
            (confirmRecord_id t.accidentId)
            (confirmRecord_eq_or_not_pending t.accidentId) rfl le_rfl h
        · rw [escalationResumeStep_update s t he]
          exact SettledId_of_eq i s _ rfl le_rfl h
  | cancel =>
      rw [step_cancel]
      rcases ha : s.activeAccident with _ | a
      · have hcc : handleCancelAccident s = s := by
          unfold handleCancelAccident
          rw [ha]
        rw [hcc]
        exact h
      · rcases ht : s.accidentTimeout with _ | t
        · have hcc : handleCancelAccident s = s := by
            unfold handleCancelAccident
            rw [ha, ht]
          rw [hcc]
          exact h
        · rw [handleCancelAccident_some s a t ha ht]
          exact SettledId_of_map i s _ (cancelRecord a.id)
            (cancelRecord_id a.id) (cancelRecord_eq_or_not_pending a.id)
            rfl le_rfl h
  | unlockFire =>
      rcases hu : s.unlockTimeouts with _ | ⟨d, rest⟩
      · have hss : step detect s .unlockFire = s := by
          unfold step
          rw [hu]
        rw [hss]
        exact h
      · have hss : step detect s .unlockFire =
            { s with unlockTimeouts := rest, isTriggered := false } := by
          unfold step
          rw [hu]
        rw [hss]
        exact SettledId_of_eq i s _ rfl le_rfl h
  | tick now =>
      rcases hl : s.lastUpdate with _ | ts
      · have hcc : step detect s (.tick now) = s := by
          rw [step_tick]
          unfold checkTimeout
          rw [hl]
        rw [hcc]
        exact h
      · have hcc : step detect s (.tick now) =
            if now - ts > 5000 then { s with isConnected := false } else s := by
          rw [step_tick]
          unfold checkTimeout
          rw [hl]
        rw [hcc]
        by_cases hc : now - ts > 5000
        · rw [if_pos hc]
          exact SettledId_of_eq i s _ rfl le_rfl h
        · rw [if_neg hc]
          exact h

theorem Inv_run (detect : List Reading → Verdict) (es : List Event) :
    ∀ s : AppState, Inv s → Inv (run detect s es) := by
  induction es with
  | nil => intro s h; exact h
  | cons e es ih => intro s h; exact ih _ (Inv_step detect s e h)

theorem SettledId_run (detect : List Reading → Verdict) (es : List Event) :
    ∀ (s : AppState) (i : ℕ), SettledId i s → SettledId i (run detect s es) := by
  induction es with
  | nil => intro s i h; exact h
  | cons e es ih => intro s i h; exact ih _ i (SettledId_step detect s e i h)

/-- C6 (amended): along any run of the program, once every record carrying a
given id has left Pending, that stays true in every continuation — a record
with the id keeps existing and none with the id ever shows Pending again.
Exactly-one fails in both directions: a cancel landing between the fired
timer and its callback's resumption produces Cancelled then Confirmed for
the same id (the ref is never cleared on fire, so the cancel guard passes,
and the resumed callback overwrites the row), and with no settings row the
fired timer leaves the record Pending forever — see the counterexample. -/
theorem C6_left_pending_absorbing (detect : List Reading → Verdict)
    (stg : Option UserSettings) (es es2 : List Event) (i : ℕ)
    (hex : ∃ r ∈ (run detect (initState stg) es).records, r.id = i)
    (hnp : ∀ r ∈ (run detect (initState stg) es).records, r.id = i →
      ¬r.status = .pending) :
    (∃ r' ∈ (run detect (run detect (initState stg) es) es2).records,
      r'.id = i) ∧
    ∀ r' ∈ (run detect (run detect (initState stg) es) es2).records,
      r'.id = i → ¬r'.status = .pending := by
  have hInv : Inv (run detect (initState stg) es) :=
    Inv_run detect es _ (Inv_initState stg)
  have hi : i < (run detect (initState stg) es).nextId := by
    rcases hex with ⟨r, hr, hid⟩
    rw [← hid]
    exact hInv r hr
  have hsr := SettledId_run detect es2 _ i ⟨hi, hex, hnp⟩
  exact ⟨hsr.2.1, hsr.2.2⟩

/-- C6 counterexample: both halves of "exactly one of Cancelled/Confirmed"
fail.  Never-both: after a trigger, the fired timer dispatches the emergency
fetch and suspends; the cancel handler still finds `activeAccident` set and
`accidentTimeoutRef` non-null (firing never clears it), so it marks the
record Cancelled with user_responded = true — and the callback's resumption
then overwrites the same record to Confirmed with emails_sent = true.
Never-neither: with no settings row the fired timer leaves the record
Pending with the timer consumed and no callback in flight. -/
theorem C6_cancel_confirm_race_counterexample :
    ((run detectAlways (initState (some st0))
      [.sample rowQ true, .timerFire, .cancel]).records.map
      (fun r => (r.id, r.status, r.user_responded, r.emails_sent)))
      = [(0, .cancelled, true, false)] ∧
    ((run detectAlways (initState (some st0))
      [.sample rowQ true, .timerFire, .cancel, .escalationResume]).records.map
      (fun r => (r.id, r.status, r.user_responded, r.emails_sent)))
      = [(0, .confirmed, true, true)] ∧
    ((run detectAlways (initState none)
      [.sample rowQ true, .timerFire]).records.map
      (fun r => (r.id, r.status))) = [(0, .pending)] ∧
    (run detectAlways (initState none)
      [.sample rowQ true, .timerFire]).timerPending = false ∧
    (run detectAlways (initState none)
      [.sample rowQ true, .timerFire]).escalation = none := by decide

/-- C6 witness: after a trigger and a clean cancel, id 0 is settled, and it
stays present and non-Pending through a late timer event, a resumption
attempt and a further qualifying sample. -/
theorem C6_witness :
    (∃ r ∈ (run detectAlways (initState (some st0))
      [.sample rowQ true, .cancel]).records, r.id = 0) ∧
    (∀ r ∈ (run detectAlways (initState (some st0))
      [.sample rowQ true, .cancel]).records, r.id = 0 →
      ¬r.status = .pending) ∧
    ((∃ r' ∈ (run detectAlways (run detectAlways (initState (some st0))
      [.sample rowQ true, .cancel])
      [.timerFire, .escalationResume, .sample rowQ true]).records,
      r'.id = 0) ∧
    ∀ r' ∈ (run detectAlways (run detectAlways (initState (some st0))
      [.sample rowQ true, .cancel])
      [.timerFire, .escalationResume, .sample rowQ true]).records,
      r'.id = 0 → ¬r'.status = .pending) :=
  ⟨by decide, by decide,
    C6_left_pending_absorbing detectAlways (some st0)
      [.sample rowQ true, .cancel]
      [.timerFire, .escalationResume, .sample rowQ true] 0
      (by decide) (by decide)⟩

/-! ### C7 — signal conditioning -/

/-- The conditioning reference stated by the spec, written from its words:
each accelerometer axis divided by the 16384 counts/g sensitivity and then
exponentially smoothed as `smoothed = prev + (1/10) * (converted - prev)`
against the previous smoothed acceleration; each gyroscope axis divided by
the 131 counts/(deg/s) sensitivity and passed through without smoothing. -/
def specConditioned (row : SensorDataRow) (prev : Vec3) : SensorData :=
  { latitude := row.latitude
    longitude := row.longitude
    accelerometer :=
      ⟨prev.x + (1 / 10) * (row.acc_x / 16384 - prev.x),
       prev.y + (1 / 10) * (row.acc_y / 16384 - prev.y),
       prev.z + (1 / 10) * (row.acc_z / 16384 - prev.z)⟩
    gyroscope := ⟨row.gyro_x / 131, row.gyro_y / 131, row.gyro_z / 131⟩
    timestamp := row.created_at }

/-- C7: for every raw sample and previous smoothed acceleration, the
conditioned output of the pipeline equals the spec's reference (accelerometer
divided by 16384 then smoothed with factor 1/10 against the previous smoothed
value, gyroscope divided by 131 and passed through), and the pipeline indeed
threads the smoothed acceleration as the next sample's previous value. -/
theorem C7_conditioning_matches_spec (s : AppState) (row : SensorDataRow) :
    conditionSample s.prevAccel row = specConditioned row s.prevAccel ∧
    (afterReading s row).prevAccel =
      (conditionSample s.prevAccel row).accelerometer := ⟨rfl, rfl⟩

/-! ### C8 — connectivity monitor -/

/-- C8 counterexample: receiving a sample does more than update the
last-sample timestamp — it unconditionally sets the live flag.  From the
disconnected initial state, a sample whose embedded timestamp (1000 ms) is
already stale relative to the current time (10000 ms) makes the feed report
live even though now - lastSampleTime = 9000 ms exceeds the 5000 ms
threshold. -/
theorem C8_stale_sample_reported_live :
    (initState none).isConnected = false ∧
    (handleNewData detectNever (initState none) rowQ true).isConnected =
      true ∧
    (handleNewData detectNever (initState none) rowQ true).lastUpdate =
      some 1000 ∧
    ((10000 : ℤ) - 1000 > 5000) := by
  have hg : triggerGuard detectNever (initState none) rowQ = false := by
    norm_num [triggerGuard, isUpsideDownOf, conditionSample,
      convertToSensorData, smoothAccel, lowPassFilter, smoothAlpha,
      initState, detectNever, rowQ]
  rw [handleNewData_of_guard_false _ _ _ _ hg]
  exact ⟨rfl, rfl, rfl, by norm_num⟩

/-- C8 (amended): receiving a sample records the sample's embedded timestamp
as the last-sample time and additionally marks the feed live; the periodic
`checkTimeout` pass then reports the feed live exactly when the current time
minus the last sample time does not exceed the 5000 ms threshold. -/
theorem C8_liveness_amended (detect : List Reading → Verdict) (s : AppState)
    (row : SensorDataRow) (ok : Bool) (now : ℤ) :
    (handleNewData detect s row ok).lastUpdate = some row.created_at ∧
    (handleNewData detect s row ok).isConnected = true ∧
    ((checkTimeout (handleNewData detect s row ok) now).isConnected = true ↔
      ¬(now - row.created_at > 5000)) := by
  have hl : (handleNewData detect s row ok).lastUpdate =
      some row.created_at := by
    rcases hg : triggerGuard detect s row with _ | _
    · rw [handleNewData_of_guard_false detect s row ok hg,
        afterReading_lastUpdate]
    · rw [handleNewData_of_guard_true detect s row ok hg,
        (handleAccidentDetected_preserved _ _ _ _ _ _).1]
      rfl
  have hc : (handleNewData detect s row ok).isConnected = true := by
    rcases hg : triggerGuard detect s row with _ | _
    · rw [handleNewData_of_guard_false detect s row ok hg,
        afterReading_isConnected]
    · rw [handleNewData_of_guard_true detect s row ok hg,
        (handleAccidentDetected_preserved _ _ _ _ _ _).2.1]
      rfl
  refine ⟨hl, hc, ?_⟩
  by_cases h : now - row.created_at > 5000 <;>
    simp [checkTimeout, hl, hc, h]

/-! ### C9 — first-sample rollover grace -/

/-- C9: the rollover check runs on the smoothed Z acceleration, whose state
starts at (0, 0, 1); for the first processed sample, any raw Z with converted
value raw_z/16384 at least -9 leaves the smoothed Z non-negative, so the
upside-down flag stays false and (with a classifier reporting no accident) no
alert is created — even though the raw converted Z is negative. -/
theorem C9_first_sample_rollover_grace (stg : Option UserSettings)
    (row : SensorDataRow) (d : ℚ)
    (h1 : -9 ≤ row.acc_z / 16384) (h2 : row.acc_z < 0) :
    (initState stg).prevAccel = ⟨0, 0, 1⟩ ∧
    row.acc_z / 16384 < 0 ∧
    0 ≤ (conditionSample (initState stg).prevAccel row).accelerometer.z ∧
    isUpsideDownOf (initState stg) row = false ∧
    ∀ ok, (handleNewData (fun _ => ⟨false, d⟩) (initState stg) row ok).records
      = [] := by
  have hzval : (conditionSample (initState stg).prevAccel row).accelerometer.z
      = 1 + (1 / 10) * (row.acc_z / 16384 - 1) := rfl
  have hz : 0 ≤ (conditionSample (initState stg).prevAccel row).accelerometer.z := by
    rw [hzval]; linarith
  have hup : isUpsideDownOf (initState stg) row = false := by
    unfold isUpsideDownOf
    exact decide_eq_false (not_lt.mpr hz)
  have hg : triggerGuard (fun _ => ⟨false, d⟩) (initState stg) row = false := by
    unfold triggerGuard
    rw [hup]
    simp
  refine ⟨rfl, ?_, hz, hup, ?_⟩
  · exact div_neg_of_neg_of_pos h2 (by norm_num)
  · intro ok
    rw [handleNewData_of_guard_false _ _ _ _ hg, afterReading_records]
    rfl

/-- C9 witness: the raw reading -16384 converts to -1 g, which is at least
-9, negative, and leaves the first smoothed Z at 4/5. -/
theorem C9_witness :
    (-9 : ℚ) ≤ (-16384 : ℚ) / 16384 ∧ (-16384 : ℚ) < 0 ∧
    ((initState (some st0)).prevAccel = ⟨0, 0, 1⟩ ∧
      (SensorDataRow.mk 0 0 0 0 (-16384) 0 0 0 5).acc_z / 16384 < 0 ∧
      0 ≤ (conditionSample (initState (some st0)).prevAccel
        (SensorDataRow.mk 0 0 0 0 (-16384) 0 0 0 5)).accelerometer.z ∧
      isUpsideDownOf (initState (some st0))
        (SensorDataRow.mk 0 0 0 0 (-16384) 0 0 0 5) = false ∧
      ∀ ok, (handleNewData (fun _ => ⟨false, 0⟩) (initState (some st0))
        (SensorDataRow.mk 0 0 0 0 (-16384) 0 0 0 5) ok).records = []) :=
  ⟨by norm_num, by norm_num,
    C9_first_sample_rollover_grace (some st0)
      (SensorDataRow.mk 0 0 0 0 (-16384) 0 0 0 5) 0
      (by norm_num) (by norm_num)⟩

/-! ### C10 — the send-accident-alert edge function -/

/-- The behaviour of `serveAccidentAlert` on a parsed body, as the amended
claim states it. -/
def C10Conclusion (req : EdgeRequest) : Prop :=
  ((serveAccidentAlert req).status = 500 ↔
    req.body = none ∨
      ∃ d, req.body = some d ∧ contentBuildThrows d = true) ∧
  (∀ d, req.body = some d → contentBuildThrows d = false →
    serveAccidentAlert req =
      { status := 200, success := some true, error := false,
        recipients := some (if d.emailType = .user_confirmation
          then [d.userEmail] else [d.contact1, d.contact2]),
        dispatched := [] }) ∧
  (serveAccidentAlert req).dispatched = []

/-- C10 counterexample: a non-OPTIONS request whose body parses as JSON but
lacks the numeric `latitude` field: `latitude.toFixed(6)` throws inside the
`user_confirmation` template, so the function answers 500, not 200. -/
theorem C10_missing_latitude_counterexample :
    (EdgeRequest.mk "POST" (some ⟨"u@example.com", "c1", "c2", none, some 0,
      some 50, "acc-1", .user_confirmation⟩)).method ≠ "OPTIONS" ∧
    (EdgeRequest.mk "POST" (some ⟨"u@example.com", "c1", "c2", none, some 0,
      some 50, "acc-1", .user_confirmation⟩)).body.isSome = true ∧
    (serveAccidentAlert (EdgeRequest.mk "POST" (some ⟨"u@example.com", "c1",
      "c2", none, some 0, some 50, "acc-1",
      .user_confirmation⟩))).status = 500 := by decide

/-- C10 (amended): for every non-OPTIONS request, the function returns 500
with an error message exactly when the body fails to parse or handling
throws (a template branch dereferencing an absent latitude/longitude);
otherwise it returns 200 with `success = true` and recipients `[userEmail]`
for `user_confirmation` and `[contact1, contact2]` for any other emailType;
it dispatches no external notification on any path. -/
theorem C10_edge_function_amended (req : EdgeRequest)
    (hm : ¬req.method = "OPTIONS") : C10Conclusion req := by
  unfold C10Conclusion serveAccidentAlert
  rw [if_neg hm]
  rcases req.body with _ | d
  · simp
  · rcases hth : contentBuildThrows d with _ | _ <;> simp [hth]

/-- C10 witness: a well-formed emergency-alert request gets the amended
behaviour. -/
theorem C10_witness :
    ¬(EdgeRequest.mk "POST" (some ⟨"u@example.com", "c1", "c2", some 1,
      some 2, some 80, "acc-9", .emergency_alert⟩)).method = "OPTIONS" ∧
    C10Conclusion (EdgeRequest.mk "POST" (some ⟨"u@example.com", "c1", "c2",
      some 1, some 2, some 80, "acc-9", .emergency_alert⟩)) :=
  ⟨by decide,
    C10_edge_function_amended (EdgeRequest.mk "POST" (some ⟨"u@example.com",
      "c1", "c2", some 1, some 2, some 80, "acc-9", .emergency_alert⟩))
      (by decide)⟩

end IoT
